import Mathlib

/-!
Shallow embedding of the math-quiz application core (`src/main.rs`):
the question-generation and enrichment pipeline, the grading engine and
the reactive state handlers.  The JS `Math.random()` float draw behind
`rand_int(min, max)` is modelled as an injectable stream of natural-number
seeds (a `List Nat`); each draw consumes one seed and maps it into the
inclusive range `[min, max]` exactly as the source's
`min + floor(r * (max - min + 1))` does for `r ∈ [0,1)` — in particular,
when `max < min` (reachable only as `rand_int(0, -1)` on an empty
operation list) the product is `0` and the result is `min`, as in the
source.  Universally quantifying over the seed stream covers every
possible sequence of draws.  Rust `Vec` indexing that can panic is
modelled with `Option`; a `none` result of a generation function marks a
panic of the original program.
-/

namespace MathQuiz

inductive Difficulty where
  | Easy
  | Moderate
  | Advanced
deriving DecidableEq, Repr

/-- `QuizConfig` from the source: question count, difficulty, the four
operation toggles and the word-problem toggle. -/
structure QuizConfig where
  num_questions : Nat
  difficulty : Difficulty
  include_add : Bool
  include_sub : Bool
  include_mul : Bool
  include_div : Bool
  include_words : Bool
deriving DecidableEq, Repr

/-- `Question` from the source. -/
structure Question where
  prompt : String
  kind : String
  answer : Int
  user_answer : String
  is_correct : Option Bool
deriving DecidableEq, Repr

/-- The random seed stream. -/
abbrev Rng := List Nat

/-- `rand_int(min, max)`: inclusive-bounds uniform integer draw, consuming
one seed of the stream.  For `max < min` the source computes
`min + (r * 0.0) as i32 = min`. -/
def rand_int (lo hi : Int) (r : Rng) : Int × Rng :=
  (if hi < lo then lo else lo + ((r.headD 0 % (hi - lo + 1).toNat : Nat) : Int), r.tail)

inductive BaseOp where
  | Add
  | Sub
  | Mul
  | Div
deriving DecidableEq, Repr

def difficulty_code (d : Difficulty) : String :=
  match d with
  | .Easy => "easy"
  | .Moderate => "moderate"
  | .Advanced => "advanced"

def difficulty_label (d : Difficulty) : String :=
  match d with
  | .Easy => "Easy"
  | .Moderate => "Moderate"
  | .Advanced => "Advanced"

/-- Operand range for `Add` and `Sub`, per difficulty (source lines 111-115
and 121-125). -/
def add_sub_range (d : Difficulty) : Int × Int :=
  match d with
  | .Easy => (0, 9)
  | .Moderate => (10, 99)
  | .Advanced => (100, 999)

/-- Factor range for `Mul`, per difficulty (source lines 132-136). -/
def mul_range (d : Difficulty) : Int × Int :=
  match d with
  | .Easy => (0, 5)
  | .Moderate => (2, 12)
  | .Advanced => (5, 20)

/-- Quotient range `(min_q, max_q)` for `Div`, per difficulty (source
lines 143-147). -/
def div_range (d : Difficulty) : Int × Int :=
  match d with
  | .Easy => (1, 9)
  | .Moderate => (2, 12)
  | .Advanced => (5, 20)

/-- `generate_basic_question`: returns `(prompt, answer, kind)` and the
remaining seed stream. -/
def generate_basic_question (cfg : QuizConfig) (op : BaseOp) (r : Rng) :
    (String × Int × String) × Rng :=
  match op with
  | .Add =>
    let mm := add_sub_range cfg.difficulty
    let pa := rand_int mm.1 mm.2 r
    let a := pa.1
    let pb := rand_int mm.1 mm.2 pa.2
    let b := pb.1
    ((s!"{a} + {b} = ?", a + b, "Addition"), pb.2)
  | .Sub =>
    let mm := add_sub_range cfg.difficulty
    let pa := rand_int mm.1 mm.2 r
    let a := pa.1
    let pb := rand_int 0 a pa.2
    let b := pb.1
    ((s!"{a} − {b} = ?", a - b, "Subtraction"), pb.2)
  | .Mul =>
    let mm := mul_range cfg.difficulty
    let pa := rand_int mm.1 mm.2 r
    let a := pa.1
    let pb := rand_int mm.1 mm.2 pa.2
    let b := pb.1
    ((s!"{a} × {b} = ?", a * b, "Multiplication"), pb.2)
  | .Div =>
    let mm := div_range cfg.difficulty
    let pd := rand_int 1 mm.2 r
    let divisor := pd.1
    let pq := rand_int mm.1 mm.2 pd.2
    let quotient := pq.1
    let dividend := divisor * quotient
    ((s!"{dividend} ÷ {divisor} = ?", quotient, "Division"), pq.2)

/-- The word-problem kind label, `format!("Word Problem 🌟 ({})", ...)`. -/
def word_kind (d : Difficulty) : String :=
  "Word Problem 🌟 (" ++ difficulty_label d ++ ")"

/-- `generate_fallback_word_problem`: the local sticker word problem used
when the remote fetch fails. -/
def generate_fallback_word_problem (cfg : QuizConfig) (r : Rng) :
    (String × Int × String) × Rng :=
  let pa := rand_int 3 15 r
  let a := pa.1
  let pb := rand_int 2 10 pa.2
  let b := pb.1
  let prompt :=
    s!"Kiki has {a} stickers. She gets {b} more from a friend. How many stickers does Kiki have now?"
  let answer := a + b
  ((prompt, answer, word_kind cfg.difficulty), pb.2)

/-- The enabled-operation list built at the top of
`generate_questions_with_ai_placeholders`, with the fallback forcing of
`Add` when nothing is chosen and word problems are off. -/
def enabled_ops (cfg : QuizConfig) : List BaseOp :=
  let ops :=
    (if cfg.include_add then [BaseOp.Add] else []) ++
    (if cfg.include_sub then [BaseOp.Sub] else []) ++
    (if cfg.include_mul then [BaseOp.Mul] else []) ++
    (if cfg.include_div then [BaseOp.Div] else [])
  if ops.isEmpty && !cfg.include_words then [BaseOp.Add] else ops

/-- The sentinel prompt of a not-yet-enriched placeholder. -/
def placeholder_prompt : String := "Loading AI word problem..."

/-- One iteration of the `for` loop of
`generate_questions_with_ai_placeholders`: the produced `Question`, a
flag recording whether the slot became a word-problem placeholder
(the `ai_count += 1` of the source), and the remaining seed stream.
Rust `&&` short-circuits, so the `rand_int(0, 3)` draw is consumed only
when `cfg.include_words` holds.  Indexing the (possibly empty) operation
list is fallible: `none` is a panic of the source. -/
def gen_slot (cfg : QuizConfig) (r : Rng) : Option ((Question × Bool) × Rng) :=
  let mw :=
    if cfg.include_words then
      let p := rand_int 0 3 r
      (p.1 == 0, p.2)
    else (false, r)
  if mw.1 then
    some ((⟨placeholder_prompt, word_kind cfg.difficulty, 0, "", none⟩, true), mw.2)
  else
    let pi := rand_int 0 (((enabled_ops cfg).length : Int) - 1) mw.2
    match (enabled_ops cfg)[pi.1.toNat]? with
    | none => none
    | some op =>
      let pak := generate_basic_question cfg op pi.2
      some ((⟨pak.1.1, pak.1.2.2, pak.1.2.1, "", none⟩, false), pak.2)

/-- The `for` loop of `generate_questions_with_ai_placeholders`: builds
the list of questions and the count of word-problem placeholders
(`ai_count`). -/
def gen_loop (cfg : QuizConfig) : Nat → Rng → Option (List Question × Nat × Rng)
  | 0, r => some ([], 0, r)
  | n + 1, r =>
    match gen_slot cfg r with
    | none => none
    | some ((q, w), r1) =>
      match gen_loop cfg n r1 with
      | none => none
      | some (qs, c, r') => some (q :: qs, if w then c + 1 else c, r')

/-- In-place mutation of a single list slot, as `vec.get_mut(i)` followed
by field assignments: out-of-range leaves the list unchanged. -/
def list_modify (f : Question → Question) (i : Nat) (l : List Question) : List Question :=
  match l, i with
  | [], _ => []
  | q :: qs, 0 => f q :: qs
  | q :: qs, n + 1 => q :: list_modify f n qs

/-- `generate_questions_with_ai_placeholders`: the scheduler.  After the
loop, if word problems were requested but no slot became a placeholder,
slot 0 is force-converted into a placeholder. -/
def generate_questions_with_ai_placeholders (cfg : QuizConfig) (r : Rng) :
    Option (List Question × Rng) :=
  match gen_loop cfg cfg.num_questions r with
  | none => none
  | some (qs, ai_count, r') =>
    if cfg.include_words && ai_count == 0 then
      some (list_modify
        (fun q => { q with prompt := placeholder_prompt, answer := 0,
                           kind := word_kind cfg.difficulty }) 0 qs, r')
    else
      some (qs, r')

/-- Rust `str::trim`, restricted to the ASCII whitespace the quiz input
can contain: drop leading and trailing whitespace characters. -/
def rust_trim (s : String) : String :=
  ⟨((s.data.dropWhile Char.isWhitespace).reverse.dropWhile Char.isWhitespace).reverse⟩

def digits_to_nat (ds : List Char) : Nat :=
  ds.foldl (fun acc c => acc * 10 + (c.toNat - 48)) 0

/-- Rust `str::parse::<i32>`: an optional single sign followed by one or
more ASCII digits, the value fitting in a 32-bit signed integer;
anything else fails. -/
def parse_i32 (s : String) : Option Int :=
  let cs := s.data
  let sd : Int × List Char :=
    match cs with
    | '+' :: rest => (1, rest)
    | '-' :: rest => (-1, rest)
    | _ => (1, cs)
  if sd.2.isEmpty then none
  else if sd.2.all Char.isDigit then
    let v : Int := sd.1 * (digits_to_nat sd.2 : Int)
    if -(2 ^ 31) ≤ v ∧ v ≤ 2 ^ 31 - 1 then some v else none
  else none

/-- The published reactive state: the question list, the results flag and
the `(correct, total)` score. -/
structure AppState where
  questions : List Question
  show_results : Bool
  score : Nat × Nat
deriving DecidableEq, Repr

/-- The grading loop of `on_check_answers`: returns the regraded list and
the number of correct answers. -/
def check_loop : List Question → List Question × Nat
  | [] => ([], 0)
  | q :: qs =>
    let rc := check_loop qs
    match parse_i32 (rust_trim q.user_answer) with
    | some v =>
      let ok := v == q.answer
      ({ q with is_correct := some ok } :: rc.1, (if ok then 1 else 0) + rc.2)
    | none => ({ q with is_correct := some false } :: rc.1, rc.2)

/-- `on_check_answers`: regrade every question from scratch, publish the
new list, the recomputed score and `show_results := true`. -/
def on_check_answers (st : AppState) : AppState :=
  let rc := check_loop st.questions
  { questions := rc.1, show_results := true, score := (rc.2, st.questions.length) }

/-- `on_reset_answers`: clear every answer and graded flag, reset the
score to `(0, total)`. -/
def on_reset_answers (st : AppState) : AppState :=
  { questions := st.questions.map fun q => { q with user_answer := "", is_correct := none },
    show_results := false,
    score := (0, st.questions.length) }

/-- `on_answer_change` (in the question row): store the new text in that
slot's `user_answer` and clear its graded flag; nothing else changes. -/
def on_answer_change (st : AppState) (index : Nat) (value : String) : AppState :=
  let f : Question → Question := fun q => { q with user_answer := value, is_correct := none }
  { st with questions := list_modify f index st.questions }

/-- The fetch-or-fallback step shared by the enrichment loop and
`on_regen_ai`: the remote fetch outcome is passed in (`none` models any
transport error, non-success status or malformed body). -/
def resolve_or_fallback (cfg : QuizConfig) (fetched : Option (String × Int × String))
    (r : Rng) : (String × Int × String) × Rng :=
  match fetched with
  | some ok => (ok, r)
  | none => generate_fallback_word_problem cfg r

/-- `on_regen_ai`: fetch (or fall back), then overwrite prompt, answer
and kind of the slot at `idx` in the latest snapshot; an out-of-range
index only logs and publishes nothing new. -/
def on_regen_ai (cfg : QuizConfig) (st : AppState) (idx : Nat)
    (fetched : Option (String × Int × String)) (r : Rng) : AppState × Rng :=
  let pak := resolve_or_fallback cfg fetched r
  let f : Question → Question :=
    fun q => { q with prompt := pak.1.1, answer := pak.1.2.1, kind := pak.1.2.2 }
  ({ st with questions := list_modify f idx st.questions }, pak.2)

/-- Spec-side grading predicate, following §4.4 of the spec word for
word: trim the user answer, attempt integer parse; unparsable text grades
false; parsed text grades true iff it equals the stored answer exactly. -/
def grades_true (q : Question) : Bool :=
  match parse_i32 (rust_trim q.user_answer) with
  | some v => v == q.answer
  | none => false

/-- Spec-side per-question grading result. -/
def grade_spec (q : Question) : Question :=
  { q with is_correct := some (grades_true q) }

/-- A kind label containing the word-problem tag, as the source's
`q.kind.contains("Word Problem")`. -/
def contains_word_tag (s : String) : Prop :=
  List.IsInfix "Word Problem".data s.data

instance (s : String) : Decidable (contains_word_tag s) := by
  unfold contains_word_tag
  infer_instance

theorem rand_int_bounds (lo hi : Int) (r : Rng) (h : lo ≤ hi) :
    lo ≤ (rand_int lo hi r).1 ∧ (rand_int lo hi r).1 ≤ hi := by
  have hk : ((hi - lo + 1).toNat : Int) = hi - lo + 1 := Int.toNat_of_nonneg (by omega)
  have hpos : 0 < (hi - lo + 1).toNat := by omega
  have hlt : r.headD 0 % (hi - lo + 1).toNat < (hi - lo + 1).toNat := Nat.mod_lt _ hpos
  have hlt2 : ((r.headD 0 % (hi - lo + 1).toNat : Nat) : Int) < ((hi - lo + 1).toNat : Int) :=
    Int.ofNat_lt.mpr hlt
  have hge : (0 : Int) ≤ ((r.headD 0 % (hi - lo + 1).toNat : Nat) : Int) := Int.ofNat_nonneg _
  simp only [rand_int]
  rw [if_neg (by omega)]
  omega

theorem list_modify_length (f : Question → Question) (i : Nat) (l : List Question) :
    (list_modify f i l).length = l.length := by
  induction l generalizing i with
  | nil => simp [list_modify]
  | cons q qs ih =>
    cases i with
    | zero => simp [list_modify]
    | succ n => simp [list_modify, ih]

theorem list_modify_get_ne (f : Question → Question) (i j : Nat) (l : List Question)
    (h : j ≠ i) : (list_modify f i l)[j]? = l[j]? := by
  induction l generalizing i j with
  | nil => simp [list_modify]
  | cons q qs ih =>
    cases i with
    | zero =>
      cases j with
      | zero => exact absurd rfl h
      | succ m => simp [list_modify]
    | succ n =>
      cases j with
      | zero => simp [list_modify]
      | succ m => simp [list_modify, ih n m (fun hh => h (by omega))]

theorem list_modify_get_eq (f : Question → Question) (i : Nat) (l : List Question) :
    (list_modify f i l)[i]? = (l[i]?).map f := by
  induction l generalizing i with
  | nil => simp [list_modify]
  | cons q qs ih =>
    cases i with
    | zero => simp [list_modify]
    | succ n => simp [list_modify, ih]

theorem list_modify_oob (f : Question → Question) (i : Nat) (l : List Question)
    (h : l.length ≤ i) : list_modify f i l = l := by
  induction l generalizing i with
  | nil => simp [list_modify]
  | cons q qs ih =>
    cases i with
    | zero => simp at h
    | succ n =>
      simp only [List.length_cons] at h
      simp [list_modify, ih n (by omega)]

theorem check_loop_eq (qs : List Question) :
    check_loop qs = (qs.map grade_spec, qs.countP grades_true) := by
  induction qs with
  | nil => rfl
  | cons q rest ih =>
    simp only [check_loop, ih, List.map_cons, List.countP_cons]
    cases hp : parse_i32 (rust_trim q.user_answer) with
    | none => simp [grade_spec, grades_true, hp]
    | some v =>
      by_cases hv : v == q.answer
      · simp [grade_spec, grades_true, hp, hv]
        omega
      · simp [grade_spec, grades_true, hp, hv]

theorem gen_slot_word (cfg : QuizConfig) (r : Rng) (q : Question) (r1 : Rng)
    (h : gen_slot cfg r = some ((q, true), r1)) : q.kind = word_kind cfg.difficulty := by
  unfold gen_slot at h
  by_cases hw : cfg.include_words
  · by_cases hz : (rand_int 0 3 r).1 == 0
    · simp only [hw, hz, if_true] at h
      simp only [Option.some.injEq, Prod.mk.injEq] at h
      rw [← h.1.1]
    · simp only [hw, hz, if_true, if_false, Bool.false_eq_true] at h
      split at h
      · exact absurd h (by simp)
      · simp only [Option.some.injEq, Prod.mk.injEq] at h
        exact absurd h.1.2 (by simp)
  · simp only [hw, if_false, Bool.false_eq_true] at h
    split at h
    · exact absurd h (by simp)
    · simp only [Option.some.injEq, Prod.mk.injEq] at h
      exact absurd h.1.2 (by simp)

theorem gen_loop_length (cfg : QuizConfig) (n : Nat) (r : Rng) (qs : List Question)
    (c : Nat) (r' : Rng) (h : gen_loop cfg n r = some (qs, c, r')) : qs.length = n := by
  induction n generalizing r qs c r' with
  | zero =>
    simp only [gen_loop, Option.some.injEq, Prod.mk.injEq] at h
    simp [← h.1]
  | succ m ih =>
    simp only [gen_loop] at h
    split at h
    · exact absurd h (by simp)
    next q w r1 heq =>
      split at h
      · exact absurd h (by simp)
      next qs0 c0 r0 heq2 =>
        simp only [Option.some.injEq, Prod.mk.injEq] at h
        rw [← h.1, List.length_cons, ih _ _ _ _ heq2]

theorem gen_loop_word_exists (cfg : QuizConfig) (n : Nat) (r : Rng) (qs : List Question)
    (c : Nat) (r' : Rng) (h : gen_loop cfg n r = some (qs, c, r')) (hc : c ≠ 0) :
    ∃ q ∈ qs, q.kind = word_kind cfg.difficulty := by
  induction n generalizing r qs c r' with
  | zero =>
    simp only [gen_loop, Option.some.injEq, Prod.mk.injEq] at h
    exact absurd h.2.1.symm hc
  | succ m ih =>
    simp only [gen_loop] at h
    split at h
    · exact absurd h (by simp)
    next q w r1 heq =>
      split at h
      · exact absurd h (by simp)
      next qs0 c0 r0 heq2 =>
        simp only [Option.some.injEq, Prod.mk.injEq] at h
        obtain ⟨h1, h2, h3⟩ := h
        cases w with
        | true =>
          refine ⟨q, ?_, gen_slot_word cfg r q r1 heq⟩
          rw [← h1]
          exact List.mem_cons_self _ _
        | false =>
          have h2' : c0 = c := by simpa using h2
          obtain ⟨p, hp, hpk⟩ := ih _ _ _ _ heq2 (by omega)
          exact ⟨p, by rw [← h1]; exact List.mem_cons_of_mem _ hp, hpk⟩

theorem word_kind_has_tag (d : Difficulty) : contains_word_tag (word_kind d) := by
  cases d <;> decide

theorem rand_int_self (lo : Int) (r : Rng) : (rand_int lo lo r).1 = lo := by
  unfold rand_int
  rw [if_neg (lt_irrefl lo)]
  norm_num

theorem gen_add_kind (cfg : QuizConfig) (r : Rng) :
    (generate_basic_question cfg .Add r).1.2.2 = "Addition" := rfl

theorem gen_slot_add_only (cfg : QuizConfig) (hw : cfg.include_words = false)
    (hops : enabled_ops cfg = [BaseOp.Add]) (r : Rng) :
    ∃ q r1, gen_slot cfg r = some ((q, false), r1) ∧ q.kind = "Addition" := by
  unfold gen_slot
  rw [hw]
  simp only [Bool.false_eq_true, if_false, hops, List.length_cons, List.length_nil]
  norm_num
  rw [rand_int_self]
  simp only [Int.toNat_zero, List.getElem?_cons_zero]
  exact ⟨_, ⟨_, rfl⟩, rfl⟩

theorem gen_loop_add_only (cfg : QuizConfig) (hw : cfg.include_words = false)
    (hops : enabled_ops cfg = [BaseOp.Add]) (n : Nat) (r : Rng) :
    ∃ qs r', gen_loop cfg n r = some (qs, 0, r') ∧ ∀ q ∈ qs, q.kind = "Addition" := by
  induction n generalizing r with
  | zero => exact ⟨[], r, rfl, by simp⟩
  | succ m ih =>
    obtain ⟨q, r1, hslot, hkind⟩ := gen_slot_add_only cfg hw hops r
    obtain ⟨qs, r', hloop, hall⟩ := ih r1
    refine ⟨q :: qs, r', ?_, ?_⟩
    · simp only [gen_loop, hslot, hloop]
      rfl
    · intro p hp
      rcases List.mem_cons.mp hp with h1 | h2
      · rw [h1]; exact hkind
      · exact hall p h2

/-- Claim C1: the claim states that building the question list succeeds
for every configuration.  The code violates it: with every operation
toggle off but word problems on, the forcing of `Add` is skipped (it
requires word problems off too), and a slot whose draw is not a word
problem indexes the empty operation list — a panic, modelled as `none`.
This theorem evaluates the scheduler at that failing input. -/
theorem claim_c1_panic :
    generate_questions_with_ai_placeholders ⟨1, .Easy, false, false, false, false, true⟩ [1] =
      none := by
  decide

/-- Claim C2, counterexample: a still-pending placeholder (sentinel
prompt, answer `0`, word-problem kind) whose user answer is `"0"` is
graded CORRECT by `on_check_answers`, contradicting the claim that a
pending placeholder always grades incorrect. -/
theorem claim_c2_counterexample :
    (on_check_answers
        ⟨[⟨placeholder_prompt, word_kind .Easy, 0, "0", none⟩], false, (0, 1)⟩).questions =
      [⟨placeholder_prompt, word_kind .Easy, 0, "0", some true⟩] := by
  decide

/-- Claim C2, amended: grading a still-pending placeholder (sentinel
prompt, stored answer `0`, word-problem kind label) marks it incorrect
for every user answer string whose trimmed form does not parse to the
sentinel answer `0`. -/
theorem claim_c2_amended (st : AppState) (i : Nat) (q : Question)
    (hq : st.questions[i]? = some q)
    (hprompt : q.prompt = placeholder_prompt)
    (hans : q.answer = 0)
    (hk : contains_word_tag q.kind)
    (hua : parse_i32 (rust_trim q.user_answer) ≠ some 0) :
    (on_check_answers st).questions[i]? = some { q with is_correct := some false } := by
  have hmap : (on_check_answers st).questions = st.questions.map grade_spec := by
    simp [on_check_answers, check_loop_eq]
  rw [hmap, List.getElem?_map, hq]
  unfold grade_spec grades_true
  cases hp : parse_i32 (rust_trim q.user_answer) with
  | none => simp [hp]
  | some v =>
    have hvz : ¬ (v = 0) := fun hv => hua (hv ▸ hp)
    have hne : (v == q.answer) = false := by
      rw [hans]
      exact beq_eq_false_iff_ne.mpr hvz
    simp [hp, hne]

theorem claim_c2_amended_witness :
    (on_check_answers
        ⟨[⟨placeholder_prompt, word_kind .Easy, 0, "seven", none⟩], false, (0, 1)⟩).questions[0]? =
      some ⟨placeholder_prompt, word_kind .Easy, 0, "seven", some false⟩ :=
  claim_c2_amended ⟨[⟨placeholder_prompt, word_kind .Easy, 0, "seven", none⟩], false, (0, 1)⟩
    0 ⟨placeholder_prompt, word_kind .Easy, 0, "seven", none⟩
    (by decide) rfl rfl (by decide) (by decide)

/-- Claim C3: for every difficulty and every draw sequence, a generated
division question has `answer * divisor = dividend` exactly, `divisor ≥ 1`,
and its prompt shows the dividend divided by the divisor. -/
theorem claim_c3 (cfg : QuizConfig) (r : Rng) :
    ∃ divisor dividend : Int,
      1 ≤ divisor ∧
      (generate_basic_question cfg .Div r).1.2.1 * divisor = dividend ∧
      (generate_basic_question cfg .Div r).1.1 = s!"{dividend} ÷ {divisor} = ?" := by
  have h1 : (1 : Int) ≤ (div_range cfg.difficulty).2 := by
    cases cfg.difficulty <;> decide
  have hb := rand_int_bounds 1 (div_range cfg.difficulty).2 r h1
  refine ⟨(rand_int 1 (div_range cfg.difficulty).2 r).1,
    (rand_int 1 (div_range cfg.difficulty).2 r).1 *
      (rand_int (div_range cfg.difficulty).1 (div_range cfg.difficulty).2
        (rand_int 1 (div_range cfg.difficulty).2 r).2).1, hb.1, ?_, ?_⟩
  · simp only [generate_basic_question]
    ring
  · simp only [generate_basic_question]

/-- Claim C4: for every difficulty and every draw sequence, a generated
subtraction question draws `a` first, then `b` in `[0, a]`, so `b ≤ a`
and the stored answer `a − b` is never negative; the prompt shows
`a − b`. -/
theorem claim_c4 (cfg : QuizConfig) (r : Rng) :
    ∃ a b : Int, 0 ≤ b ∧ b ≤ a ∧
      (generate_basic_question cfg .Sub r).1.2.1 = a - b ∧
      0 ≤ (generate_basic_question cfg .Sub r).1.2.1 ∧
      (generate_basic_question cfg .Sub r).1.1 = s!"{a} − {b} = ?" := by
  have h1 : (add_sub_range cfg.difficulty).1 ≤ (add_sub_range cfg.difficulty).2 := by
    cases cfg.difficulty <;> decide
  have h0 : (0 : Int) ≤ (add_sub_range cfg.difficulty).1 := by
    cases cfg.difficulty <;> decide
  have hba := rand_int_bounds (add_sub_range cfg.difficulty).1 (add_sub_range cfg.difficulty).2 r h1
  have hbb := rand_int_bounds 0
    ((rand_int (add_sub_range cfg.difficulty).1 (add_sub_range cfg.difficulty).2 r).1)
    ((rand_int (add_sub_range cfg.difficulty).1 (add_sub_range cfg.difficulty).2 r).2)
    (by omega)
  refine ⟨(rand_int (add_sub_range cfg.difficulty).1 (add_sub_range cfg.difficulty).2 r).1,
    (rand_int 0 ((rand_int (add_sub_range cfg.difficulty).1 (add_sub_range cfg.difficulty).2 r).1)
      ((rand_int (add_sub_range cfg.difficulty).1 (add_sub_range cfg.difficulty).2 r).2)).1,
    hbb.1, hbb.2, ?_, ?_, ?_⟩
  · simp only [generate_basic_question]
  · simp only [generate_basic_question]
    omega
  · simp only [generate_basic_question]

/-- Claim C5: whenever word problems are enabled, the question count is
at least 1 and the scheduler returns a list (it does not panic), that
list contains at least one question whose kind label contains the
word-problem tag — if no random draw produced a placeholder, slot 0 is
force-converted. -/
theorem claim_c5 (cfg : QuizConfig) (r : Rng) (qs : List Question) (r' : Rng)
    (hw : cfg.include_words = true) (hn : 1 ≤ cfg.num_questions)
    (h : generate_questions_with_ai_placeholders cfg r = some (qs, r')) :
    ∃ q ∈ qs, contains_word_tag q.kind := by
  unfold generate_questions_with_ai_placeholders at h
  split at h
  · exact absurd h (by simp)
  next qs0 c0 r0 heq =>
    by_cases hc : c0 = 0
    · rw [hw, hc] at h
      simp only [Bool.true_and, beq_self_eq_true, if_true] at h
      simp only [Option.some.injEq, Prod.mk.injEq] at h
      have hlen : qs0.length = cfg.num_questions := gen_loop_length cfg _ r qs0 c0 r0 heq
      cases qs0 with
      | nil =>
        simp only [List.length_nil] at hlen
        omega
      | cons q0 rest =>
        refine ⟨{ q0 with prompt := placeholder_prompt, answer := 0, kind := word_kind cfg.difficulty }, ?_, ?_⟩
        · rw [← h.1]
          simp [list_modify]
        · exact word_kind_has_tag cfg.difficulty
    · have hcc : (c0 == 0) = false := by simpa using hc
      rw [hcc, Bool.and_false] at h
      simp only [Bool.false_eq_true, if_false, Option.some.injEq, Prod.mk.injEq] at h
      obtain ⟨q, hq, hk⟩ := gen_loop_word_exists cfg _ r qs0 c0 r0 heq hc
      refine ⟨q, by rw [← h.1]; exact hq, ?_⟩
      rw [hk]
      exact word_kind_has_tag cfg.difficulty

theorem claim_c5_witness :
    ∃ q ∈ [(⟨placeholder_prompt, word_kind .Easy, 0, "", none⟩ : Question),
           ⟨placeholder_prompt, word_kind .Easy, 0, "", none⟩],
      contains_word_tag q.kind :=
  claim_c5 ⟨2, .Easy, true, false, false, false, true⟩ [] _ [] rfl (by decide) (by decide)

/-- Claim C6: grading trims each user answer and attempts an integer
parse — unparsable text (including empty input) grades false, parsed
text grades true iff it equals the stored answer exactly (`grade_spec`
follows the spec's words) — and the published score is the pair (number
of questions graded true, total question count), recomputed from the
question list alone, independent of any previously stored score. -/
theorem claim_c6 (st : AppState) (s : Nat × Nat) :
    (on_check_answers st).questions = st.questions.map grade_spec ∧
    (on_check_answers st).score = (st.questions.countP grades_true, st.questions.length) ∧
    (on_check_answers st).score.1 =
      (on_check_answers st).questions.countP (fun q => q.is_correct == some true) ∧
    (on_check_answers { st with score := s }).score = (on_check_answers st).score := by
  refine ⟨?_, ?_, ?_, ?_⟩
  · simp [on_check_answers, check_loop_eq]
  · simp [on_check_answers, check_loop_eq]
  · simp only [on_check_answers, check_loop_eq, List.countP_map]
    congr 1
    funext q
    simp [grade_spec, Function.comp]
  · simp [on_check_answers, check_loop_eq]

/-- Claim C7: with every operation toggle off and word problems off,
generation does not fail — addition is force-enabled — and every
question in the resulting list is an addition question. -/
theorem claim_c7 (cfg : QuizConfig) (r : Rng)
    (ha : cfg.include_add = false) (hs : cfg.include_sub = false)
    (hm : cfg.include_mul = false) (hd : cfg.include_div = false)
    (hw : cfg.include_words = false) :
    ∃ qs r', generate_questions_with_ai_placeholders cfg r = some (qs, r') ∧
      qs.length = cfg.num_questions ∧ ∀ q ∈ qs, q.kind = "Addition" := by
  have hops : enabled_ops cfg = [BaseOp.Add] := by
    simp [enabled_ops, ha, hs, hm, hd, hw]
  obtain ⟨qs, r', hloop, hall⟩ := gen_loop_add_only cfg hw hops cfg.num_questions r
  refine ⟨qs, r', ?_, gen_loop_length cfg _ r qs 0 r' hloop, hall⟩
  unfold generate_questions_with_ai_placeholders
  rw [hloop]
  simp [hw]

theorem claim_c7_witness :
    ∃ qs r',
      generate_questions_with_ai_placeholders ⟨2, .Easy, false, false, false, false, false⟩ [] =
        some (qs, r') ∧
      qs.length = 2 ∧ ∀ q ∈ qs, q.kind = "Addition" :=
  claim_c7 ⟨2, .Easy, false, false, false, false, false⟩ [] rfl rfl rfl rfl rfl

/-- Claim C8: when the remote fetch fails (`fetched = none`), the
locally synthesized fallback word problem draws `a ∈ [3, 15]` and
`b ∈ [2, 10]`, its prompt is the documented sticker template over `a`
and `b`, its answer is `a + b`, and its kind label is the word-problem
label carrying the difficulty tag. -/
theorem claim_c8 (cfg : QuizConfig) (r : Rng) :
    ∃ a b : Int, 3 ≤ a ∧ a ≤ 15 ∧ 2 ≤ b ∧ b ≤ 10 ∧
      (resolve_or_fallback cfg none r).1 =
        (s!"Kiki has {a} stickers. She gets {b} more from a friend. How many stickers does Kiki have now?",
         a + b, "Word Problem 🌟 (" ++ difficulty_label cfg.difficulty ++ ")") := by
  have hba := rand_int_bounds 3 15 r (by decide)
  have hbb := rand_int_bounds 2 10 (rand_int 3 15 r).2 (by decide)
  exact ⟨(rand_int 3 15 r).1, (rand_int 2 10 (rand_int 3 15 r).2).1,
    hba.1, hba.2, hbb.1, hbb.2, by simp only [resolve_or_fallback,
      generate_fallback_word_problem, word_kind]⟩

/-- Claim C9: editing the user answer of one question stores the new
text and clears only that question's graded flag; every other question,
the results flag and the aggregate score are unchanged. -/
theorem claim_c9 (st : AppState) (idx : Nat) (v : String) (j : Nat) (hj : j ≠ idx) :
    (on_answer_change st idx v).score = st.score ∧
    (on_answer_change st idx v).show_results = st.show_results ∧
    (on_answer_change st idx v).questions.length = st.questions.length ∧
    (on_answer_change st idx v).questions[j]? = st.questions[j]? ∧
    (on_answer_change st idx v).questions[idx]? =
      (st.questions[idx]?).map fun q => { q with user_answer := v, is_correct := none } := by
  refine ⟨rfl, rfl, ?_, ?_, ?_⟩
  · simp [on_answer_change, list_modify_length]
  · simp [on_answer_change, list_modify_get_ne _ _ _ _ hj]
  · simp [on_answer_change, list_modify_get_eq]

theorem claim_c9_witness :
    (on_answer_change ⟨[⟨"1 + 1 = ?", "Addition", 2, "2", some true⟩,
        ⟨"2 + 2 = ?", "Addition", 4, "3", some false⟩], true, (1, 2)⟩ 0 "5").score = (1, 2) ∧
    (on_answer_change ⟨[⟨"1 + 1 = ?", "Addition", 2, "2", some true⟩,
        ⟨"2 + 2 = ?", "Addition", 4, "3", some false⟩], true, (1, 2)⟩ 0 "5").show_results = true ∧
    (on_answer_change ⟨[⟨"1 + 1 = ?", "Addition", 2, "2", some true⟩,
        ⟨"2 + 2 = ?", "Addition", 4, "3", some false⟩], true, (1, 2)⟩ 0 "5").questions.length = 2 ∧
    (on_answer_change ⟨[⟨"1 + 1 = ?", "Addition", 2, "2", some true⟩,
        ⟨"2 + 2 = ?", "Addition", 4, "3", some false⟩], true, (1, 2)⟩ 0 "5").questions[1]? =
      some ⟨"2 + 2 = ?", "Addition", 4, "3", some false⟩ ∧
    (on_answer_change ⟨[⟨"1 + 1 = ?", "Addition", 2, "2", some true⟩,
        ⟨"2 + 2 = ?", "Addition", 4, "3", some false⟩], true, (1, 2)⟩ 0 "5").questions[0]? =
      some ⟨"1 + 1 = ?", "Addition", 2, "5", none⟩ :=
  claim_c9 ⟨[⟨"1 + 1 = ?", "Addition", 2, "2", some true⟩,
    ⟨"2 + 2 = ?", "Addition", 4, "3", some false⟩], true, (1, 2)⟩ 0 "5" 1 (by decide)

/-- Claim C10: the single-slot regenerate handler mutates at most the
question at `idx` — and there only prompt, answer and kind, preserving
the user answer and graded flag — leaving every other question, the
results flag and the score unchanged; an out-of-range index leaves the
question list completely unchanged and cannot panic. -/
theorem claim_c10 (cfg : QuizConfig) (st : AppState) (idx : Nat)
    (fetched : Option (String × Int × String)) (r : Rng) (j : Nat) (hj : j ≠ idx) :
    ((on_regen_ai cfg st idx fetched r).1).score = st.score ∧
    ((on_regen_ai cfg st idx fetched r).1).show_results = st.show_results ∧
    ((on_regen_ai cfg st idx fetched r).1).questions.length = st.questions.length ∧
    ((on_regen_ai cfg st idx fetched r).1).questions[j]? = st.questions[j]? ∧
    ((on_regen_ai cfg st idx fetched r).1).questions[idx]? =
      (st.questions[idx]?).map (fun q =>
        { q with prompt := (resolve_or_fallback cfg fetched r).1.1,
                 answer := (resolve_or_fallback cfg fetched r).1.2.1,
                 kind := (resolve_or_fallback cfg fetched r).1.2.2 }) ∧
    (st.questions.length ≤ idx → ((on_regen_ai cfg st idx fetched r).1).questions = st.questions) := by
  refine ⟨rfl, rfl, ?_, ?_, ?_, ?_⟩
  · simp [on_regen_ai, list_modify_length]
  · simp [on_regen_ai, list_modify_get_ne _ _ _ _ hj]
  · simp [on_regen_ai, list_modify_get_eq]
  · intro h
    simp [on_regen_ai, list_modify_oob _ _ _ h]

theorem claim_c10_witness :
    ((on_regen_ai ⟨10, .Easy, true, true, false, false, true⟩
        ⟨[⟨"1 + 1 = ?", "Addition", 2, "", none⟩, ⟨"W", "Word Problem 🌟 (Easy)", 7, "", none⟩],
          false, (0, 2)⟩ 5 (some ("New problem", 9, "Word Problem 🌟 (Easy)")) []).1).score =
      (0, 2) ∧
    ((on_regen_ai ⟨10, .Easy, true, true, false, false, true⟩
        ⟨[⟨"1 + 1 = ?", "Addition", 2, "", none⟩, ⟨"W", "Word Problem 🌟 (Easy)", 7, "", none⟩],
          false, (0, 2)⟩ 5 (some ("New problem", 9, "Word Problem 🌟 (Easy)")) []).1).show_results =
      false ∧
    ((on_regen_ai ⟨10, .Easy, true, true, false, false, true⟩
        ⟨[⟨"1 + 1 = ?", "Addition", 2, "", none⟩, ⟨"W", "Word Problem 🌟 (Easy)", 7, "", none⟩],
          false, (0, 2)⟩ 5 (some ("New problem", 9, "Word Problem 🌟 (Easy)")) []).1).questions.length =
      2 ∧
    ((on_regen_ai ⟨10, .Easy, true, true, false, false, true⟩
        ⟨[⟨"1 + 1 = ?", "Addition", 2, "", none⟩, ⟨"W", "Word Problem 🌟 (Easy)", 7, "", none⟩],
          false, (0, 2)⟩ 5 (some ("New problem", 9, "Word Problem 🌟 (Easy)")) []).1).questions[0]? =
      some ⟨"1 + 1 = ?", "Addition", 2, "", none⟩ ∧
    ((on_regen_ai ⟨10, .Easy, true, true, false, false, true⟩
        ⟨[⟨"1 + 1 = ?", "Addition", 2, "", none⟩, ⟨"W", "Word Problem 🌟 (Easy)", 7, "", none⟩],
          false, (0, 2)⟩ 5 (some ("New problem", 9, "Word Problem 🌟 (Easy)")) []).1).questions[5]? =
      none ∧
    ((2 : Nat) ≤ 5 →
      ((on_regen_ai ⟨10, .Easy, true, true, false, false, true⟩
        ⟨[⟨"1 + 1 = ?", "Addition", 2, "", none⟩, ⟨"W", "Word Problem 🌟 (Easy)", 7, "", none⟩],
          false, (0, 2)⟩ 5 (some ("New problem", 9, "Word Problem 🌟 (Easy)")) []).1).questions =
        [⟨"1 + 1 = ?", "Addition", 2, "", none⟩, ⟨"W", "Word Problem 🌟 (Easy)", 7, "", none⟩]) :=
  claim_c10 ⟨10, .Easy, true, true, false, false, true⟩
    ⟨[⟨"1 + 1 = ?", "Addition", 2, "", none⟩, ⟨"W", "Word Problem 🌟 (Easy)", 7, "", none⟩],
      false, (0, 2)⟩ 5 (some ("New problem", 9, "Word Problem 🌟 (Easy)")) [] 0 (by decide)

end MathQuiz
